import Mathlib

/-!
# Verification of the CloudXR OVR client

A shallow embedding, in Lean 4, of the controller input-action remapping
engine (`CloudXRController.cpp`) and of the client/render state machine and
per-frame tracking pipeline (`app/src/main/src/main.cpp`) of the CloudXR
client, together with proofs about the embedded definitions.

C++ `std::map` values are modelled as association lists whose `insert`
keeps the first binding for a key (as `std::map::insert` does);
`float` values are modelled as exact rationals; machine enums whose
concrete numeric values live in the external SDK headers are modelled as
natural-number codes.
-/

namespace CloudXR

/-! ## Association-list model of the `std::map` operations used by the code -/

/-- `std::map::find`: the value stored at key `k`, if any. -/
def mapFind? {K V : Type} [DecidableEq K] (m : List (K × V)) (k : K) : Option V :=
  (m.find? (fun p => p.1 = k)).map Prod.snd

/-- `std::map::insert`: inserts `(k, v)` only when key `k` is absent. -/
def mapInsert {K V : Type} [DecidableEq K] (m : List (K × V)) (k : K) (v : V) :
    List (K × V) :=
  match mapFind? m k with
  | some _ => m
  | none => m ++ [(k, v)]

/-- `std::map::operator[]` as used by `HandleModernEvents`: the stored value,
or the value-initialized default when the key is absent (in which case
`operator[]` also inserts that default). Returns the value and the map. -/
def mapGetOrInsert {K V : Type} [DecidableEq K] (m : List (K × V)) (k : K) (d : V) :
    V × List (K × V) :=
  match mapFind? m k with
  | some v => (v, m)
  | none => (d, m ++ [(k, d)])

/-- A map has well-formed keys when no key occurs twice. -/
def NodupKeys {K V : Type} (m : List (K × V)) : Prop :=
  (m.map Prod.fst).Nodup

/-! ## The controller input-action map (`cxrControllerInputActionMap`)

Translated from `CloudXRController.cpp`.  The SDK enum `cxrInputValueType`
lives in an external header; its values are modelled as natural-number codes
(`boolean` and `float32` are distinct codes; `0` is the value-initialized
code produced by `std::map::operator[]` on a missing key). -/

/-- `cxrInputValueType_boolean`, an SDK enum code (exact numeral external). -/
def cxrInputValueType_boolean : Nat := 1

/-- `cxrInputValueType_float32`, an SDK enum code (exact numeral external). -/
def cxrInputValueType_float32 : Nat := 2

structure cxrControllerInputActionMap where
  serverInputPaths : List (String × Nat) := []
  serverInputDatatypes : List (Nat × Nat) := []
  serverActionPaths : List (String × Nat) := []
  clientInputPaths : List (String × Nat) := []
  clientInputDatatypes : List (Nat × Nat) := []
  actionProfile : List (String × String) := []
  inputToActionRemap : List (Nat × Nat) := []
deriving DecidableEq

namespace cxrControllerInputActionMap

/-- The registration loop shared by `RegisterClientInputs` and
`RegisterServerInputs`: the `i`-th array entry `(path, type)` inserts
`path ↦ i` into the path map and `i ↦ type` into the datatype map
(`std::map::insert`, so an earlier binding for the same key wins). -/
def registerInputsLoop (i : Nat) (inputs : List (String × Nat))
    (pathAcc : List (String × Nat)) (typeAcc : List (Nat × Nat)) :
    List (String × Nat) × List (Nat × Nat) :=
  match inputs with
  | [] => (pathAcc, typeAcc)
  | (p, t) :: rest =>
    registerInputsLoop (i + 1) rest (mapInsert pathAcc p i) (mapInsert typeAcc i t)

/-- The `RegisterActions` loop: the `i`-th action path is inserted with its
array offset `i` as the action index. -/
def registerActionsLoop (i : Nat) (actionPaths : List String)
    (acc : List (String × Nat)) : List (String × Nat) :=
  match actionPaths with
  | [] => acc
  | p :: rest => registerActionsLoop (i + 1) rest (mapInsert acc p i)

/-- `cxrControllerInputActionMap::RegisterClientInputs`: clears and rebuilds
the client input path and datatype vocabularies.  The C array pair
`(paths[], types[])` of length `count` is modelled as one list of pairs. -/
def RegisterClientInputs (m : cxrControllerInputActionMap)
    (inputs : List (String × Nat)) : cxrControllerInputActionMap :=
  { m with
    clientInputPaths := (registerInputsLoop 0 inputs [] []).1
    clientInputDatatypes := (registerInputsLoop 0 inputs [] []).2 }

/-- `cxrControllerInputActionMap::RegisterServerInputs`: clears and rebuilds
the server input vocabularies (the per-entry client lookup only feeds an
advisory datatype-mismatch warning and mutates nothing). -/
def RegisterServerInputs (m : cxrControllerInputActionMap)
    (inputs : List (String × Nat)) : cxrControllerInputActionMap :=
  { m with
    serverInputPaths := (registerInputsLoop 0 inputs [] []).1
    serverInputDatatypes := (registerInputsLoop 0 inputs [] []).2 }

/-- `cxrControllerInputActionMap::RegisterActions`: clears the action
vocabulary and inserts each action path with its array offset as index
("the action INDEX is the array offset"). -/
def RegisterActions (m : cxrControllerInputActionMap) (actionPaths : List String) :
    cxrControllerInputActionMap :=
  { m with serverActionPaths := registerActionsLoop 0 actionPaths [] }

/-- One iteration of the `BindProfile` loop over a profile entry
`binding = (clientPath, serverActionPath)`: unresolvable entries are skipped,
resolvable ones are inserted into the remap and into the retained profile. -/
def bindProfileStep (m : cxrControllerInputActionMap) (binding : String × String) :
    cxrControllerInputActionMap :=
  match mapFind? m.clientInputPaths binding.1 with
  | none => m
  | some clientIndex =>
    match mapFind? m.serverActionPaths binding.2 with
    | none => m
    | some serverActionIndex =>
      { m with
        inputToActionRemap := mapInsert m.inputToActionRemap clientIndex serverActionIndex
        actionProfile := mapInsert m.actionProfile binding.1 binding.2 }

/-- `cxrControllerInputActionMap::BindProfile`: clears `m_actionProfile` and
`m_inputToActionRemap`, then folds `bindProfileStep` over the profile in its
iteration order (a `std::map<string,string>`, so keys are unique). -/
def BindProfile (m : cxrControllerInputActionMap) (profile : List (String × String)) :
    cxrControllerInputActionMap :=
  profile.foldl bindProfileStep { m with actionProfile := [], inputToActionRemap := [] }

/-- The effect of one `BindProfile` iteration on the remap table alone, as a
function of the (unchanging) client-input and server-action vocabularies
`C` and `A`; used to relate `BindProfile` to a vocabulary-indexed fold. -/
def remapFoldStep (C A : List (String × Nat)) (acc : List (Nat × Nat))
    (b : String × String) : List (Nat × Nat) :=
  match mapFind? C b.1 with
  | none => acc
  | some clientIndex =>
    match mapFind? A b.2 with
    | none => acc
    | some serverActionIndex => mapInsert acc clientIndex serverActionIndex

/-- `cxrControllerInputActionMap::GetActionIndex`: action index if present in
the remap table, otherwise `0`, which means "no action". -/
def GetActionIndex (m : cxrControllerInputActionMap) (clientInputIndex : Nat) : Nat :=
  match mapFind? m.inputToActionRemap clientInputIndex with
  | some v => v
  | none => 0

end cxrControllerInputActionMap

/-! ## `CloudXRController::HandleModernEvents` -/

/-- The payload of a `cxrControllerEvent` (the union is modelled by carrying
both member fields). -/
structure cxrInputValue where
  valueType : Nat := 0
  vBool : Bool := false
  vF32 : Rat := 0
deriving DecidableEq

structure cxrControllerEvent where
  clientTimeNS : Nat := 0
  clientInputIndex : Nat := 0
  inputValue : cxrInputValue := {}
deriving DecidableEq

/-- A server action event produced from a client controller event. -/
structure cxrActionEvent where
  actionIndex : Nat
  clientEvent : cxrControllerEvent
deriving DecidableEq

namespace CloudXRController

open cxrControllerInputActionMap

/-- The body of the `HandleModernEvents` loop for a single raw event:
`m_clientInputDatatypes[clientIndex]` (with `operator[]` default-insert on a
missing key) is compared with the event's value type; on mismatch the event
is dropped; otherwise the action index is resolved and the event is dropped
when it is `0`, else appended to the server queue. -/
def handleOneModernEvent (m : cxrControllerInputActionMap)
    (serverQueue : List cxrActionEvent) (e : cxrControllerEvent) :
    cxrControllerInputActionMap × List cxrActionEvent :=
  let r := mapGetOrInsert m.clientInputDatatypes e.clientInputIndex 0
  let m1 := { m with clientInputDatatypes := r.2 }
  if r.1 ≠ e.inputValue.valueType then
    (m1, serverQueue)
  else
    let ai := GetActionIndex m1 e.clientInputIndex
    if ai = 0 then
      (m1, serverQueue)
    else
      (m1, serverQueue ++ [{ actionIndex := ai, clientEvent := e }])

/-- `CloudXRController::HandleModernEvents`, acting on the controller's
`m_actionMap` and on the caller-locked server queue. -/
def HandleModernEvents (m : cxrControllerInputActionMap)
    (serverQueue : List cxrActionEvent) (events : List cxrControllerEvent) :
    cxrControllerInputActionMap × List cxrActionEvent :=
  events.foldl (fun acc e => handleOneModernEvent acc.1 acc.2 e) (m, serverQueue)

end CloudXRController

/-! ### A concrete registration scenario

A minimal vocabulary exercising `RegisterActions`: the server registers one
real action, which receives index `0` (its array offset), and the client
registers one input bound to it by the profile. -/

/-- The action map after registering client input `/input/trigger/value`,
server action `/actions/example`, and binding them in the profile. -/
def c2ExampleMap : cxrControllerInputActionMap :=
  ((({} : cxrControllerInputActionMap).RegisterClientInputs
    [("/input/trigger/value", cxrInputValueType_float32)]).RegisterActions
    ["/actions/example"]).BindProfile [("/input/trigger/value", "/actions/example")]

/-- A well-typed event on the bound client input `/input/trigger/value`. -/
def c2ExampleEvent : cxrControllerEvent :=
  { clientInputIndex := 0,
    inputValue := { valueType := cxrInputValueType_float32, vF32 := 1 } }

/-! ## The OVR client state machine and frame pipeline (`main.cpp`)

External collaborators (the VrApi runtime, the streaming SDK, audio, GL) are
modelled by an oracle record `OvrEnv` holding the results their calls return
during the step being modelled; converted poses are carried as opaque
tokens. -/

/-- `cxrClientState` (SDK enum). -/
inductive cxrClientState where
  | ReadyToConnect
  | ConnectionAttemptInProgress
  | ConnectionAttemptFailed
  | StreamingSessionInProgress
  | Disconnected
  | Exiting
deriving DecidableEq

/-- `CxrcRenderStates` from `main.h`. -/
inductive RenderState where
  | Loading
  | Running
  | Exiting
deriving DecidableEq

/-- The `cxrError` codes distinguished by `main.cpp`; all remaining SDK codes
are carried by `other`. -/
inductive cxrError where
  | Success
  | Frame_Not_Ready
  | Not_Connected
  | Failed
  | Required_Parameter
  | Module_Load_Failed
  | other (code : Nat)
deriving DecidableEq

/-- `ovrInputStateTrackedRemote`: the raw per-frame controller input
snapshot (button mask, touch mask, scalar axes). -/
structure ovrInputStateTrackedRemote where
  Buttons : Nat := 0
  Touches : Nat := 0
  IndexTrigger : Rat := 0
  GripTrigger : Rat := 0
  JoystickX : Rat := 0
  JoystickY : Rat := 0
deriving DecidableEq

/-- The two `cxrHmdTrackingFlags` bits `main.cpp` ever sets. -/
structure cxrHmdTrackingFlags where
  hasIPD : Bool := false
  hasRefresh : Bool := false
deriving DecidableEq

/-- The HMD part of `cxrVRTrackingState` (pose carried as an opaque token). -/
structure cxrHmdTrackingState where
  ipd : Rat := 0
  flags : cxrHmdTrackingFlags := {}
  displayRefresh : Rat := 0
  pose : Nat := 0
  poseIsValid : Bool := false
  deviceIsConnected : Bool := false
deriving DecidableEq

/-- `cxrVRTrackingState` (controller entries carried as opaque pose
tokens). -/
structure cxrVRTrackingState where
  poseTimeOffset : Rat := 0
  hmd : cxrHmdTrackingState := {}
  controllerPose0 : Nat := 0
  controllerPose1 : Nat := 0
deriving DecidableEq

/-- The `CloudXRClientOVR` member state read or written by the modelled
functions; the field defaults are the `main.h` in-class initializers and the
constructor assignments. -/
structure CloudXRClientOVR where
  renderState : RenderState := .Loading
  lastInputState0 : ovrInputStateTrackedRemote := {}
  lastInputState1 : ovrInputStateTrackedRemote := {}
  nativeWindow : Bool := false
  ovrSession : Bool := false
  frameCounter : Nat := 0
  controllersFound : Nat := 0
  refreshChanged : Bool := false
  targetDisplayRefresh : Rat := 0
  isPaused : Bool := true
  wasPaused : Bool := true
  isFocused : Bool := true
  readyToConnect : Bool := false
  headsetOnHead : Bool := true
  controllerAdded0 : Bool := false
  controllerAdded1 : Bool := false
  framebuffer0 : Bool := false
  framebuffer1 : Bool := false
  swapChain0 : Bool := false
  swapChain1 : Bool := false
  eyeWidth0 : Nat := 0
  eyeHeight0 : Nat := 0
  eyeWidth1 : Nat := 0
  eyeHeight1 : Nat := 0
  playbackStream : Bool := false
  recordingStream : Bool := false
  trackingState : cxrVRTrackingState := {}
  receiver : Bool := false
  clientState : cxrClientState := .ReadyToConnect
  clientError : cxrError := .Success
  descWidth : Nat := 0
  descHeight : Nat := 0
  descReceiveAudio : Bool := false
  descSendAudio : Bool := false
  connectionAsync : Bool := false
  framesUntilStats : Int := 60
  fatalThrown : Bool := false
deriving DecidableEq

/-- One device as the VrApi enumeration reports it for the current frame,
with the results of the per-device VrApi/SDK calls. -/
structure OvrDeviceSample where
  isTrackedRemote : Bool := true
  isRightHand : Bool := false
  isOculusTouch : Bool := true
  addControllerOk : Bool := true
  trackingOk : Bool := true
  poseSample : Nat := 0
  inputOk : Bool := true
  input : ovrInputStateTrackedRemote := {}
deriving DecidableEq

/-- The oracle for all external calls made during one modelled step. -/
structure OvrEnv where
  devices : List OvrDeviceSample := []
  fireEventsOk : Bool := true
  timeNS : Nat := 0
  rawIpd : Rat := 0
  headPoseSample : Nat := 0
  headOrientationValid : Bool := true
  hmdConnected : Bool := true
  enterVrOk : Bool := true
  serverIPSet : Bool := true
  optReceiveAudio : Bool := false
  optSendAudio : Bool := false
  audioPlaybackOk : Bool := true
  audioRecordingOk : Bool := true
  createReceiverOk : Bool := true
  connectError : cxrError := .Success
  descWidth : Nat := 0
  descHeight : Nat := 0
  selectedRefresh : Rat := 72
  latchError : cxrError := .Success
  frameWidth0 : Nat := 0
  frameHeight0 : Nat := 0
  frameWidth1 : Nat := 0
  frameHeight1 : Nat := 0
  setupFbOk : Bool := true
deriving DecidableEq

namespace CloudXRClientOVR

/-- `CloudXRClientOVR::RequestExit`. -/
def RequestExit (s : CloudXRClientOVR) : CloudXRClientOVR :=
  { s with clientState := .Exiting, renderState := .Exiting }

/-- `CloudXRClientOVR::UpdateClientState`: early return when already
Exiting; under an async connection a streaming state moves the render state
to Running; a disconnect or failed connection attempt funnels into
`RequestExit`. -/
def UpdateClientState (s : CloudXRClientOVR) : CloudXRClientOVR :=
  if s.clientState = .Exiting then s
  else
    let s1 :=
      if s.connectionAsync then
        match s.clientState with
        | .StreamingSessionInProgress => { s with renderState := .Running }
        | _ => s
      else s
    if s1.clientState = .Disconnected ∨ s1.clientState = .ConnectionAttemptFailed then
      RequestExit s1
    else s1

/-- The `s_clientProxy.UpdateClientState` lambda installed in
`CreateReceiver`: the async peer callback records the reported state and
error into the client object, unconditionally. -/
def clientProxyUpdateClientState (s : CloudXRClientOVR) (state : cxrClientState)
    (error : cxrError) : CloudXRClientOVR :=
  { s with clientState := state, clientError := error }

/-- `CloudXRClientOVR::TeardownReceiver`: closes both audio streams and
destroys the receiver. -/
def TeardownReceiver (s : CloudXRClientOVR) : CloudXRClientOVR :=
  { s with playbackStream := false, recordingStream := false, receiver := false }

/-- `CloudXRClientOVR::AppPaused`: deletes framebuffers; if a receiver
exists, tears it down and (unless already Exiting) resets the client state to
ReadyToConnect and the render state to Loading; destroys the swapchains,
zeroes the eye sizes and the tracking state; then syncs `mWasPaused`. -/
def AppPaused (s : CloudXRClientOVR) : CloudXRClientOVR :=
  let s1 := { s with framebuffer0 := false, framebuffer1 := false }
  let s2 :=
    if s1.receiver then
      let t := TeardownReceiver s1
      if t.clientState ≠ .Exiting then
        { t with clientState := .ReadyToConnect, renderState := .Loading }
      else t
    else s1
  let s3 := { s2 with
    swapChain0 := false, swapChain1 := false
    eyeWidth0 := 0, eyeWidth1 := 0, eyeHeight0 := 0, eyeHeight1 := 0
    trackingState := {} }
  { s3 with wasPaused := s3.isPaused }

/-- `CloudXRClientOVR::EnterVRMode`: enters VR mode when no session exists
yet; reports whether a session is available afterwards. -/
def EnterVRMode (env : OvrEnv) (s : CloudXRClientOVR) : Bool × CloudXRClientOVR :=
  if ¬s.ovrSession then
    if env.enterVrOk then (true, { s with ovrSession := true })
    else (false, s)
  else (true, s)

/-- `CloudXRClientOVR::RecreateSwapchain` for one eye: destroys any existing
swapchain and creates one with the new size. -/
def RecreateSwapchain (w h : Nat) (eye : Fin 2) (s : CloudXRClientOVR) :
    CloudXRClientOVR :=
  if eye = 0 then
    { s with swapChain0 := true, eyeWidth0 := w, eyeHeight0 := h }
  else
    { s with swapChain1 := true, eyeWidth1 := w, eyeHeight1 := h }

/-- `CloudXRClientOVR::DetectControllers`: counts the enumerated tracked
remotes with Oculus Touch capability. -/
def DetectControllers (env : OvrEnv) (s : CloudXRClientOVR) : CloudXRClientOVR :=
  { s with controllersFound :=
      (env.devices.filter (fun d => d.isTrackedRemote && d.isOculusTouch)).length }

/-- `CloudXRClientOVR::GetDeviceDesc` as it affects client state: stores the
device-descriptor geometry and audio options and the selected target display
refresh (the display-rate query and matching are VrApi calls, abstracted by
`env.selectedRefresh`). -/
def GetDeviceDesc (env : OvrEnv) (s : CloudXRClientOVR) : CloudXRClientOVR :=
  { s with
    targetDisplayRefresh := env.selectedRefresh
    descWidth := env.descWidth
    descHeight := env.descHeight
    descReceiveAudio := env.optReceiveAudio
    descSendAudio := env.optSendAudio }

/-- `CloudXRClientOVR::CreateReceiver`: no-op when a receiver exists;
requires a server address and a VR session; opens the audio streams the
descriptor asks for; creates the receiver, sets the connection descriptor to
async and connects (so the synchronous-connect branch is dead). -/
def CreateReceiver (env : OvrEnv) (s : CloudXRClientOVR) :
    cxrError × CloudXRClientOVR :=
  if s.receiver then (.Success, s)
  else if ¬env.serverIPSet then (.Required_Parameter, s)
  else if ¬s.ovrSession then (.Failed, s)
  else
    let rp : Option CloudXRClientOVR :=
      if s.descReceiveAudio then
        if env.audioPlaybackOk then some { s with playbackStream := true } else none
      else some s
    match rp with
    | none => (.Failed, s)
    | some s1 =>
      let rr : Option CloudXRClientOVR :=
        if s1.descSendAudio then
          if env.audioRecordingOk then some { s1 with recordingStream := true } else none
        else some s1
      match rr with
      | none => (.Failed, s1)
      | some s2 =>
        if ¬env.createReceiverOk then (.Failed, s2)
        else
          let s3 := { s2 with receiver := true, connectionAsync := true }
          if ¬s3.connectionAsync then
            if env.connectError ≠ .Success then (env.connectError, TeardownReceiver s3)
            else (.Success, { s3 with clientState := .StreamingSessionInProgress,
                                      renderState := .Running })
          else (.Success, s3)

/-- `CloudXRClientOVR::AppResumed`: requires a VR session (else requests
exit); detects controllers, clears the cached input history, recomputes the
device descriptor, recreates both eye swapchains; creates the receiver when
absent and ready to connect, requesting exit on failure (returning without
syncing `mWasPaused`); otherwise syncs `mWasPaused`. -/
def AppResumed (env : OvrEnv) (s : CloudXRClientOVR) : CloudXRClientOVR :=
  if ¬s.ovrSession then RequestExit s
  else
    let s1 := DetectControllers env s
    let s2 := { s1 with lastInputState0 := {}, lastInputState1 := {} }
    let s3 := GetDeviceDesc env s2
    let s4 := RecreateSwapchain s3.descWidth s3.descHeight 0 s3
    let s5 := RecreateSwapchain s4.descWidth s4.descHeight 1 s4
    let r :=
      if ¬s5.receiver ∧ s5.readyToConnect then
        let cr := CreateReceiver env s5
        (decide (cr.1 ≠ cxrError.Success), cr.2)
      else (false, s5)
    if r.1 then RequestExit r.2
    else
      let s6 := if ¬r.2.connectionAsync then { r.2 with renderState := .Running } else r.2
      { s6 with wasPaused := s6.isPaused }

/-- `CloudXRClientOVR::HandleVrModeChanges`: a no-op unless the paused flag
changed since the last loop iteration; on resume (window present, not
Exiting) enters VR mode and runs `AppResumed` (exit requested on failure);
on pause (or Exiting) leaves VR mode and runs `AppPaused`. -/
def HandleVrModeChanges (env : OvrEnv) (s : CloudXRClientOVR) : CloudXRClientOVR :=
  if s.isPaused = s.wasPaused then s
  else if ¬s.isPaused ∧ s.nativeWindow = true ∧ s.clientState ≠ .Exiting then
    let r := EnterVRMode env s
    if ¬r.1 then RequestExit r.2
    else AppResumed env r.2
  else if s.isPaused ∨ s.clientState = .Exiting then
    AppPaused { s with ovrSession := false }
  else s

/-- The static `ovrBitsToInput` table: OVR button-mask bit index to client
input index, `-1` meaning the bit is not mapped. -/
def ovrBitsToInput : List Int :=
  [12, 13, -1, -1,
   -1, -1, -1, -1,
   14, 15, -1, -1,
   -1, -1, -1, -1,
   -1, -1, -1, -1,
   0, -1, -1, -1,
   -1, -1, 5, -1,
   -1, 2, -1, 8]

/-- The static `ovrTouchToInput` table: OVR touch-mask bit index to client
input index, `-1` meaning the bit is not mapped. -/
def ovrTouchToInput : List Int :=
  [16, 17, 18, 19,
   -1, 9, 3, -1,
   -1, -1, -1, -1,
   -1, -1, -1, -1]

/-- The four scalar comparisons at the top of the `ProcessControllers` event
pass: a float event is emitted for each scalar that changed since the cached
snapshot (client input indices 4, 7, 10, 11). -/
def scalarEvents (input last : ovrInputStateTrackedRemote) (inputTimeNS : Nat) :
    List cxrControllerEvent :=
  (if input.IndexTrigger ≠ last.IndexTrigger then
    [{ clientTimeNS := inputTimeNS, clientInputIndex := 4,
       inputValue := { valueType := cxrInputValueType_float32,
                       vF32 := input.IndexTrigger } }]
   else []) ++
  (if input.GripTrigger ≠ last.GripTrigger then
    [{ clientTimeNS := inputTimeNS, clientInputIndex := 7,
       inputValue := { valueType := cxrInputValueType_float32,
                       vF32 := input.GripTrigger } }]
   else []) ++
  (if input.JoystickX ≠ last.JoystickX then
    [{ clientTimeNS := inputTimeNS, clientInputIndex := 10,
       inputValue := { valueType := cxrInputValueType_float32,
                       vF32 := input.JoystickX } }]
   else []) ++
  (if input.JoystickY ≠ last.JoystickY then
    [{ clientTimeNS := inputTimeNS, clientInputIndex := 11,
       inputValue := { valueType := cxrInputValueType_float32,
                       vF32 := input.JoystickY } }]
   else [])

/-- One iteration of the button-mask loop: bit `i` produces a boolean event
exactly when the bit is mapped in `ovrBitsToInput` and its value changed. -/
def buttonBitEvent (input last : ovrInputStateTrackedRemote)
    (inputTimeNS i : Nat) : Option cxrControllerEvent :=
  let inputId := ovrBitsToInput.getD i (-1)
  if inputId < 0 then none
  else
    let bitset := input.Buttons.testBit i
    let oldbit := last.Buttons.testBit i
    if bitset ≠ oldbit then
      some { clientTimeNS := inputTimeNS, clientInputIndex := inputId.toNat,
             inputValue := { valueType := cxrInputValueType_boolean, vBool := bitset } }
    else none

/-- The button-mask pass: guarded by a whole-mask comparison, then loops
over the 32 bits. -/
def buttonEvents (input last : ovrInputStateTrackedRemote) (inputTimeNS : Nat) :
    List cxrControllerEvent :=
  if input.Buttons ≠ last.Buttons then
    (List.range 32).filterMap (buttonBitEvent input last inputTimeNS)
  else []

/-- One iteration of the touch-mask loop (16 bits, `ovrTouchToInput`). -/
def touchBitEvent (input last : ovrInputStateTrackedRemote)
    (inputTimeNS i : Nat) : Option cxrControllerEvent :=
  let inputId := ovrTouchToInput.getD i (-1)
  if inputId < 0 then none
  else
    let bitset := input.Touches.testBit i
    let oldbit := last.Touches.testBit i
    if bitset ≠ oldbit then
      some { clientTimeNS := inputTimeNS, clientInputIndex := inputId.toNat,
             inputValue := { valueType := cxrInputValueType_boolean, vBool := bitset } }
    else none

/-- The touch-mask pass. -/
def touchEvents (input last : ovrInputStateTrackedRemote) (inputTimeNS : Nat) :
    List cxrControllerEvent :=
  if input.Touches ≠ last.Touches then
    (List.range 16).filterMap (touchBitEvent input last inputTimeNS)
  else []

/-- The full per-device event synthesis of `ProcessControllers`: scalars,
then button bits, then touch bits. -/
def deviceEvents (input last : ovrInputStateTrackedRemote) (inputTimeNS : Nat) :
    List cxrControllerEvent :=
  scalarEvents input last inputTimeNS ++ buttonEvents input last inputTimeNS ++
    touchEvents input last inputTimeNS

/-- `mLastInputState[handIndex]`. -/
def getLastInput (s : CloudXRClientOVR) (right : Bool) : ovrInputStateTrackedRemote :=
  if right then s.lastInputState1 else s.lastInputState0

/-- Overwrite `mLastInputState[handIndex]`. -/
def setLastInput (s : CloudXRClientOVR) (right : Bool)
    (v : ovrInputStateTrackedRemote) : CloudXRClientOVR :=
  if right then { s with lastInputState1 := v } else { s with lastInputState0 := v }

/-- Whether `m_newControllers[handIndex]` holds a controller handle. -/
def getControllerAdded (s : CloudXRClientOVR) (right : Bool) : Bool :=
  if right then s.controllerAdded1 else s.controllerAdded0

/-- Record the controller handle returned by `cxrAddController`. -/
def setControllerAdded (s : CloudXRClientOVR) (right : Bool) : CloudXRClientOVR :=
  if right then { s with controllerAdded1 := true } else { s with controllerAdded0 := true }

/-- `TrackingState.controller[handIndex]` pose update. -/
def setControllerPose (s : CloudXRClientOVR) (right : Bool) (pose : Nat) :
    CloudXRClientOVR :=
  if right then { s with trackingState.controllerPose1 := pose }
  else { s with trackingState.controllerPose0 := pose }

/-- The `ProcessControllers` loop body for one enumerated device: skip
non-remote devices; lazily add the controller for this hand (skipping the
device on an add error); skip on tracking-query failure (after which the
controller pose is written); skip on input-query failure; then synthesize
the change events and, when at least one exists, fire them at the receiver —
on success the cached snapshot is overwritten, on failure the code throws
(modelled by the `fatalThrown` flag, which aborts the device loop). -/
def ProcessOneDevice (env : OvrEnv) (d : OvrDeviceSample) (s : CloudXRClientOVR) :
    CloudXRClientOVR × List cxrControllerEvent :=
  if ¬d.isTrackedRemote then (s, [])
  else
    let right := d.isRightHand
    if ¬getControllerAdded s right ∧ ¬d.addControllerOk then (s, [])
    else
      let s1 := if getControllerAdded s right then s else setControllerAdded s right
      if ¬d.trackingOk then (s1, [])
      else
        let s2 := setControllerPose s1 right d.poseSample
        if ¬d.inputOk then (s2, [])
        else
          let events := deviceEvents d.input (getLastInput s2 right) env.timeNS
          if events = [] then (s2, [])
          else if env.fireEventsOk then (setLastInput s2 right d.input, events)
          else ({ s2 with fatalThrown := true }, events)

/-- The device-enumeration loop of `ProcessControllers`; the second
component collects the event batches passed to `cxrFireControllerEvents`.
A throw (failed fire) aborts the loop. -/
def ProcessDevicesLoop (env : OvrEnv) (devices : List OvrDeviceSample)
    (s : CloudXRClientOVR) : CloudXRClientOVR × List (List cxrControllerEvent) :=
  match devices with
  | [] => (s, [])
  | d :: rest =>
    let r := ProcessOneDevice env d s
    if r.1.fatalThrown then (r.1, [r.2])
    else
      let rr := ProcessDevicesLoop env rest r.1
      (rr.1, (if r.2 = [] then [] else [r.2]) ++ rr.2)

/-- `CloudXRClientOVR::ProcessControllers`: an early return does nothing at
all unless a streaming session is in progress. -/
def ProcessControllers (env : OvrEnv) (s : CloudXRClientOVR) :
    CloudXRClientOVR × List (List cxrControllerEvent) :=
  if s.clientState ≠ .StreamingSessionInProgress then (s, [])
  else ProcessDevicesLoop env env.devices s

/-- `truncf`: truncation toward zero. -/
def truncf (x : Rat) : Int :=
  if 0 ≤ x then ⌊x⌋ else ⌈x⌉

/-- The IPD truncation in `DoTracking`:
`truncf(ipd * 10000.0f) / 10000.0f`. -/
def ipdTruncate (ipd : Rat) : Rat :=
  ((truncf (ipd * 10000) : Int) : Rat) / 10000

/-- `CloudXRClientOVR::DoTracking`: runs `ProcessControllers` first, then
fills the HMD part of the tracking state: the truncated IPD; the dynamic
flag bundle reset to zero every frame, with `HasIPD` OR-ed in
unconditionally and `HasRefresh` OR-ed in (with the capped refresh value)
only when a refresh change is pending, which also clears the pending flag;
then the converted head pose and its status bits. -/
def DoTracking (env : OvrEnv) (s : CloudXRClientOVR) :
    CloudXRClientOVR × List (List cxrControllerEvent) :=
  let pc := ProcessControllers env s
  let s2 := { pc.1 with trackingState.poseTimeOffset := 0 }
  let flags1 : cxrHmdTrackingFlags := { hasIPD := true, hasRefresh := false }
  let s3 :=
    if s2.refreshChanged then
      { s2 with trackingState.hmd.displayRefresh := min s2.targetDisplayRefresh 90,
                refreshChanged := false }
    else s2
  let flags2 := if s2.refreshChanged then { flags1 with hasRefresh := true } else flags1
  ({ s3 with
      trackingState.hmd.ipd := ipdTruncate env.rawIpd
      trackingState.hmd.flags := flags2
      trackingState.hmd.pose := env.headPoseSample
      trackingState.hmd.poseIsValid := env.headOrientationValid
      trackingState.hmd.deviceIsConnected := env.hmdConnected }, pc.2)

/-- `CloudXRClientOVR::Render`: advances the frame counter; latches a frame
only when a receiver exists and the session is streaming; a latch timeout
(`Frame_Not_Ready`) or any other latch error except `Not_Connected` is
logged and leaves the states alone, while `Not_Connected` triggers
`RequestExit`; a valid frame recreates a swapchain whose size changed and is
blitted, an invalid frame paints the background placeholder instead (second
component: placeholder painted). -/
def Render (env : OvrEnv) (s : CloudXRClientOVR) : CloudXRClientOVR × Bool :=
  let s0 := { s with frameCounter := s.frameCounter + 1 }
  let fv :=
    if s0.receiver then
      if s0.clientState = .StreamingSessionInProgress then
        if env.latchError = .Success then (true, s0)
        else if env.latchError = .Frame_Not_Ready then (false, s0)
        else if env.latchError = .Not_Connected then (false, RequestExit s0)
        else (false, s0)
      else (false, s0)
    else (false, s0)
  let frameValid := fv.1
  let s1 := fv.2
  let s2 :=
    if frameValid = true ∧
        (env.frameWidth0 ≠ s1.eyeWidth0 ∨ env.frameHeight0 ≠ s1.eyeHeight0) then
      RecreateSwapchain env.frameWidth0 env.frameHeight0 0 s1
    else s1
  let s3 :=
    if frameValid = true ∧
        (env.frameWidth1 ≠ s2.eyeWidth1 ∨ env.frameHeight1 ≠ s2.eyeHeight1) then
      RecreateSwapchain env.frameWidth1 env.frameHeight1 1 s2
    else s2
  let placeholder := env.setupFbOk && !frameValid
  let s4 :=
    if frameValid then { s3 with framesUntilStats := s3.framesUntilStats - 1 } else s3
  (s4, placeholder)

end CloudXRClientOVR

/-! ## Lemmas about the association-list map model -/

@[simp] theorem mapFind?_nil {K V : Type} [DecidableEq K] (k : K) :
    mapFind? ([] : List (K × V)) k = none := rfl

theorem mapFind?_cons {K V : Type} [DecidableEq K] (p : K × V) (t : List (K × V)) (k : K) :
    mapFind? (p :: t) k = if p.1 = k then some p.2 else mapFind? t k := by
  by_cases hp : p.1 = k
  · unfold mapFind?
    rw [List.find?_cons_of_pos _ (by simp [hp])]
    simp [hp]
  · unfold mapFind?
    rw [List.find?_cons_of_neg _ (by simp [hp])]
    simp [hp]

theorem mapFind?_eq_none_iff {K V : Type} [DecidableEq K] {m : List (K × V)} {k : K} :
    mapFind? m k = none ↔ k ∉ m.map Prod.fst := by
  induction m with
  | nil => simp
  | cons p t ih =>
    rw [mapFind?_cons]
    by_cases hp : p.1 = k
    · rw [if_pos hp]
      simp only [List.map_cons, List.mem_cons]
      constructor
      · intro h
        exact absurd h (Option.some_ne_none _)
      · intro h
        exact (h (Or.inl hp.symm)).elim
    · rw [if_neg hp, ih]
      simp only [List.map_cons, List.mem_cons]
      constructor
      · intro h hor
        rcases hor with h1 | h2
        · exact hp h1.symm
        · exact h h2
      · intro h hmem
        exact h (Or.inr hmem)

theorem mapFind?_mem {K V : Type} [DecidableEq K] {m : List (K × V)} {k : K} {v : V}
    (h : mapFind? m k = some v) : (k, v) ∈ m := by
  induction m with
  | nil => simp at h
  | cons p t ih =>
    rw [mapFind?_cons] at h
    by_cases hp : p.1 = k
    · rw [if_pos hp] at h
      obtain ⟨a, b⟩ := p
      simp only [Option.some.injEq] at h
      dsimp at hp
      subst hp
      subst h
      exact List.mem_cons_self _ _
    · rw [if_neg hp] at h
      exact List.mem_cons_of_mem _ (ih h)

theorem mem_mapFind? {K V : Type} [DecidableEq K] {m : List (K × V)} {k : K} {v : V}
    (hnodup : NodupKeys m) (h : (k, v) ∈ m) : mapFind? m k = some v := by
  induction m with
  | nil => cases h
  | cons p t ih =>
    unfold NodupKeys at hnodup
    rw [List.map_cons, List.nodup_cons] at hnodup
    rcases List.mem_cons.mp h with he | ht
    · rw [← he, mapFind?_cons]
      simp
    · rw [mapFind?_cons]
      have hk : p.1 ≠ k := by
        intro hkk
        apply hnodup.1
        rw [hkk]
        exact List.mem_map.mpr ⟨(k, v), ht, rfl⟩
      rw [if_neg hk]
      exact ih hnodup.2 ht

theorem mapInsert_nodupKeys {K V : Type} [DecidableEq K] (m : List (K × V)) (k : K) (v : V)
    (h : NodupKeys m) : NodupKeys (mapInsert m k v) := by
  unfold mapInsert
  cases hf : mapFind? m k with
  | some w => exact h
  | none =>
    unfold NodupKeys
    rw [List.map_append]
    simp only [List.map_cons, List.map_nil]
    rw [List.nodup_append]
    refine ⟨h, List.nodup_singleton k, ?_⟩
    intro a ha hb
    simp at hb
    rw [hb] at ha
    exact (mapFind?_eq_none_iff.mp hf) ha

theorem mem_mapInsert {K V : Type} [DecidableEq K] {m : List (K × V)} {k k' : K} {v v' : V}
    (h : (k, v) ∈ mapInsert m k' v') :
    (k, v) ∈ m ∨ (k = k' ∧ v = v' ∧ mapFind? m k' = none) := by
  unfold mapInsert at h
  cases hf : mapFind? m k' with
  | some w => rw [hf] at h; exact Or.inl h
  | none =>
    rw [hf] at h
    rcases List.mem_append.mp h with hm | hs
    · exact Or.inl hm
    · simp at hs
      exact Or.inr ⟨hs.1, hs.2, rfl⟩

theorem mapInsert_mem_self {K V : Type} [DecidableEq K] {m : List (K × V)} {k : K} {v : V}
    (hf : mapFind? m k = none) : (k, v) ∈ mapInsert m k v := by
  unfold mapInsert
  rw [hf]
  simp

theorem mem_mapInsert_of_mem {K V : Type} [DecidableEq K] {m : List (K × V)} {k k' : K}
    {v v' : V} (h : (k, v) ∈ m) : (k, v) ∈ mapInsert m k' v' := by
  unfold mapInsert
  cases hf : mapFind? m k' with
  | some w => exact h
  | none => exact List.mem_append_left _ h

theorem mapFind?_append_singleton_ne {K V : Type} [DecidableEq K]
    {m : List (K × V)} {k k' : K} {v' : V} (h : k' ≠ k) :
    mapFind? (m ++ [(k', v')]) k = mapFind? m k := by
  induction m with
  | nil =>
    rw [List.nil_append, mapFind?_cons, if_neg h]
  | cons p t ih =>
    rw [List.cons_append, mapFind?_cons, mapFind?_cons, ih]

theorem mapFind?_mapInsert_ne {K V : Type} [DecidableEq K] {m : List (K × V)}
    {k k' : K} {v' : V} (h : k' ≠ k) :
    mapFind? (mapInsert m k' v') k = mapFind? m k := by
  unfold mapInsert
  cases mapFind? m k' with
  | some w => rfl
  | none => exact mapFind?_append_singleton_ne h

/-! ## Lemmas about `BindProfile` and the registration loops (claim C3) -/

namespace cxrControllerInputActionMap

theorem bindProfileStep_clientInputPaths (m : cxrControllerInputActionMap)
    (b : String × String) :
    (bindProfileStep m b).clientInputPaths = m.clientInputPaths := by
  unfold bindProfileStep
  cases mapFind? m.clientInputPaths b.1 with
  | none => rfl
  | some ci =>
    cases mapFind? m.serverActionPaths b.2 with
    | none => rfl
    | some ai => rfl

theorem bindProfileStep_serverActionPaths (m : cxrControllerInputActionMap)
    (b : String × String) :
    (bindProfileStep m b).serverActionPaths = m.serverActionPaths := by
  unfold bindProfileStep
  cases mapFind? m.clientInputPaths b.1 with
  | none => rfl
  | some ci =>
    cases mapFind? m.serverActionPaths b.2 with
    | none => rfl
    | some ai => rfl

theorem bindProfileStep_remap (m : cxrControllerInputActionMap) (b : String × String) :
    (bindProfileStep m b).inputToActionRemap =
      remapFoldStep m.clientInputPaths m.serverActionPaths m.inputToActionRemap b := by
  unfold bindProfileStep remapFoldStep
  cases mapFind? m.clientInputPaths b.1 with
  | none => rfl
  | some ci =>
    cases mapFind? m.serverActionPaths b.2 with
    | none => rfl
    | some ai => rfl

theorem foldl_bindProfileStep_clientInputPaths :
    ∀ (p : List (String × String)) (m : cxrControllerInputActionMap),
      (p.foldl bindProfileStep m).clientInputPaths = m.clientInputPaths
  | [], m => rfl
  | b :: t, m => by
    rw [List.foldl_cons, foldl_bindProfileStep_clientInputPaths t,
      bindProfileStep_clientInputPaths]

theorem foldl_bindProfileStep_serverActionPaths :
    ∀ (p : List (String × String)) (m : cxrControllerInputActionMap),
      (p.foldl bindProfileStep m).serverActionPaths = m.serverActionPaths
  | [], m => rfl
  | b :: t, m => by
    rw [List.foldl_cons, foldl_bindProfileStep_serverActionPaths t,
      bindProfileStep_serverActionPaths]

theorem foldl_bindProfileStep_remap :
    ∀ (p : List (String × String)) (m : cxrControllerInputActionMap),
      (p.foldl bindProfileStep m).inputToActionRemap =
        p.foldl (remapFoldStep m.clientInputPaths m.serverActionPaths)
          m.inputToActionRemap
  | [], m => rfl
  | b :: t, m => by
    rw [List.foldl_cons, List.foldl_cons, foldl_bindProfileStep_remap t,
      bindProfileStep_clientInputPaths, bindProfileStep_serverActionPaths,
      bindProfileStep_remap]

theorem BindProfile_remap (m : cxrControllerInputActionMap)
    (p : List (String × String)) :
    (BindProfile m p).inputToActionRemap =
      p.foldl (remapFoldStep m.clientInputPaths m.serverActionPaths) [] := by
  unfold BindProfile
  rw [foldl_bindProfileStep_remap]

theorem remapFoldStep_nodupKeys (C A : List (String × Nat)) (acc : List (Nat × Nat))
    (b : String × String) (h : NodupKeys acc) : NodupKeys (remapFoldStep C A acc b) := by
  unfold remapFoldStep
  cases mapFind? C b.1 with
  | none => exact h
  | some ci =>
    cases mapFind? A b.2 with
    | none => exact h
    | some ai => exact mapInsert_nodupKeys _ _ _ h

theorem remapFold_nodupKeys (C A : List (String × Nat)) :
    ∀ (p : List (String × String)) (acc : List (Nat × Nat)), NodupKeys acc →
      NodupKeys (p.foldl (remapFoldStep C A) acc)
  | [], acc, h => h
  | b :: t, acc, h => by
    rw [List.foldl_cons]
    exact remapFold_nodupKeys C A t _ (remapFoldStep_nodupKeys C A acc b h)

theorem remapFold_mem_mono (C A : List (String × Nat)) :
    ∀ (p : List (String × String)) (acc : List (Nat × Nat)) (x : Nat × Nat),
      x ∈ acc → x ∈ p.foldl (remapFoldStep C A) acc
  | [], acc, x, h => h
  | b :: t, acc, x, h => by
    rw [List.foldl_cons]
    apply remapFold_mem_mono C A t
    unfold remapFoldStep
    cases mapFind? C b.1 with
    | none => exact h
    | some ci =>
      cases mapFind? A b.2 with
      | none => exact h
      | some ai =>
        obtain ⟨xk, xv⟩ := x
        exact mem_mapInsert_of_mem h

theorem remapFold_mem_inv (C A : List (String × Nat)) :
    ∀ (p : List (String × String)) (acc : List (Nat × Nat)) (ci ai : Nat),
      (ci, ai) ∈ p.foldl (remapFoldStep C A) acc →
      (ci, ai) ∈ acc ∨ ∃ b ∈ p, mapFind? C b.1 = some ci ∧ mapFind? A b.2 = some ai
  | [], acc, ci, ai, h => Or.inl h
  | b :: t, acc, ci, ai, h => by
    rw [List.foldl_cons] at h
    rcases remapFold_mem_inv C A t _ ci ai h with hacc | ⟨b', hb', h1, h2⟩
    · unfold remapFoldStep at hacc
      cases hC : mapFind? C b.1 with
      | none => rw [hC] at hacc; exact Or.inl hacc
      | some cb =>
        rw [hC] at hacc
        cases hA : mapFind? A b.2 with
        | none => rw [hA] at hacc; exact Or.inl hacc
        | some ab =>
          rw [hA] at hacc
          rcases mem_mapInsert hacc with hmem | ⟨hc, ha, _⟩
          · exact Or.inl hmem
          · exact Or.inr ⟨b, List.mem_cons_self _ _, by rw [hC, hc], by rw [hA, ha]⟩
    · exact Or.inr ⟨b', List.mem_cons_of_mem _ hb', h1, h2⟩

theorem remapFold_complete (C A : List (String × Nat))
    (injC : ∀ p₁ p₂ i, mapFind? C p₁ = some i → mapFind? C p₂ = some i → p₁ = p₂) :
    ∀ (p : List (String × String)) (acc : List (Nat × Nat)) (b : String × String)
      (ci ai : Nat),
      (p.map Prod.fst).Nodup → b ∈ p →
      mapFind? C b.1 = some ci → mapFind? A b.2 = some ai →
      mapFind? acc ci = none →
      (ci, ai) ∈ p.foldl (remapFoldStep C A) acc
  | b' :: t, acc, b, ci, ai, hnd, hmem, hC, hA, hacc => by
    rw [List.map_cons, List.nodup_cons] at hnd
    rw [List.foldl_cons]
    rcases List.mem_cons.mp hmem with he | ht
    · subst he
      have hstep : remapFoldStep C A acc b = mapInsert acc ci ai := by
        unfold remapFoldStep
        rw [hC, hA]
      rw [hstep]
      exact remapFold_mem_mono C A t _ _ (mapInsert_mem_self hacc)
    · apply remapFold_complete C A injC t _ b ci ai hnd.2 ht hC hA
      unfold remapFoldStep
      cases hC' : mapFind? C b'.1 with
      | none => exact hacc
      | some cb' =>
        cases hA' : mapFind? A b'.2 with
        | none => exact hacc
        | some ab' =>
          have hne : cb' ≠ ci := by
            intro he
            have heq : b'.1 = b.1 := injC b'.1 b.1 ci (by rw [hC', he]) hC
            have : b'.1 ∈ List.map Prod.fst t := by
              rw [heq]
              exact List.mem_map.mpr ⟨b, ht, rfl⟩
            exact hnd.1 this
          rw [mapFind?_mapInsert_ne hne]
          exact hacc

theorem registerInputsLoop_path_mem :
    ∀ (inputs : List (String × Nat)) (i : Nat) (pathAcc : List (String × Nat))
      (typeAcc : List (Nat × Nat)) (p : String) (j : Nat),
      (p, j) ∈ (registerInputsLoop i inputs pathAcc typeAcc).1 →
      (p, j) ∈ pathAcc ∨ (i ≤ j ∧ (inputs.map Prod.fst).get? (j - i) = some p)
  | [], i, pathAcc, typeAcc, p, j, h => Or.inl h
  | (q, t) :: rest, i, pathAcc, typeAcc, p, j, h => by
    rcases registerInputsLoop_path_mem rest (i + 1) _ _ p j h with hm | ⟨hij, hget⟩
    · rcases mem_mapInsert hm with hp | ⟨hpq, hji, _⟩
      · exact Or.inl hp
      · refine Or.inr ⟨by omega, ?_⟩
        subst hpq
        subst hji
        simp
    · refine Or.inr ⟨by omega, ?_⟩
      have hd : j - i = (j - (i + 1)) + 1 := by omega
      rw [List.map_cons, hd, List.get?_cons_succ]
      exact hget

theorem registerInputsLoop_inj (inputs : List (String × Nat)) :
    ∀ p₁ p₂ i, mapFind? (registerInputsLoop 0 inputs [] []).1 p₁ = some i →
      mapFind? (registerInputsLoop 0 inputs [] []).1 p₂ = some i → p₁ = p₂ := by
  intro p₁ p₂ i h₁ h₂
  rcases registerInputsLoop_path_mem inputs 0 [] [] p₁ i (mapFind?_mem h₁) with h | ⟨_, g₁⟩
  · cases h
  rcases registerInputsLoop_path_mem inputs 0 [] [] p₂ i (mapFind?_mem h₂) with h | ⟨_, g₂⟩
  · cases h
  rw [Nat.sub_zero] at g₁ g₂
  exact Option.some.inj (g₁.symm.trans g₂)

theorem remapFold_lookup_iff (C A : List (String × Nat))
    (injC : ∀ p₁ p₂ i, mapFind? C p₁ = some i → mapFind? C p₂ = some i → p₁ = p₂)
    (p : List (String × String)) (hnd : (p.map Prod.fst).Nodup) (ci ai : Nat) :
    mapFind? (p.foldl (remapFoldStep C A) []) ci = some ai ↔
      ∃ b ∈ p, mapFind? C b.1 = some ci ∧ mapFind? A b.2 = some ai := by
  constructor
  · intro h
    rcases remapFold_mem_inv C A p [] ci ai (mapFind?_mem h) with h0 | hex
    · cases h0
    · exact hex
  · rintro ⟨b, hb, hC, hA⟩
    exact mem_mapFind? (remapFold_nodupKeys C A p [] List.nodup_nil)
      (remapFold_complete C A injC p [] b ci ai hnd hb hC hA rfl)

theorem bindProfileStep_skip (m : cxrControllerInputActionMap) (b : String × String)
    (h : mapFind? m.clientInputPaths b.1 = none ∨
      mapFind? m.serverActionPaths b.2 = none) :
    bindProfileStep m b = m := by
  unfold bindProfileStep
  rcases h with h | h
  · rw [h]
  · cases hcf : mapFind? m.clientInputPaths b.1 with
    | none => rfl
    | some ci => rw [h]

theorem foldl_bindProfileStep_skip (pre post : List (String × String))
    (b : String × String) (m' : cxrControllerInputActionMap)
    (h : mapFind? m'.clientInputPaths b.1 = none ∨
      mapFind? m'.serverActionPaths b.2 = none) :
    (pre ++ b :: post).foldl bindProfileStep m' =
      (pre ++ post).foldl bindProfileStep m' := by
  rw [List.foldl_append, List.foldl_append, List.foldl_cons]
  congr 1
  apply bindProfileStep_skip
  rw [foldl_bindProfileStep_clientInputPaths, foldl_bindProfileStep_serverActionPaths]
  exact h

/-- Claim C3: for all registered client-input and server-action vocabularies
and all binding profiles, the remap table produced by `BindProfile` is a
function of (clientInputPaths, serverActionPaths, profile-as-set) only: its
lookups are independent of the profile iteration order (profile keys being
unique) and of any previously bound profile or other prior map state (each
call clears and rebuilds); and every profile entry whose client path or
server action path is absent from its vocabulary is skipped without
affecting the rest of the table. -/
theorem claim_C3 :
    (∀ (m₁ m₂ : cxrControllerInputActionMap) (clientInputs : List (String × Nat))
        (actionPaths : List String) (profile₁ profile₂ : List (String × String)),
      profile₁.Perm profile₂ → (profile₁.map Prod.fst).Nodup →
      ∀ ci,
        mapFind? (((m₁.RegisterClientInputs clientInputs).RegisterActions
            actionPaths).BindProfile profile₁).inputToActionRemap ci =
        mapFind? (((m₂.RegisterClientInputs clientInputs).RegisterActions
            actionPaths).BindProfile profile₂).inputToActionRemap ci) ∧
    (∀ (m : cxrControllerInputActionMap) (pre post : List (String × String))
        (b : String × String),
      (mapFind? m.clientInputPaths b.1 = none ∨
        mapFind? m.serverActionPaths b.2 = none) →
      m.BindProfile (pre ++ b :: post) = m.BindProfile (pre ++ post)) := by
  constructor
  · intro m₁ m₂ clientInputs actionPaths p₁ p₂ hperm hnd ci
    have hinj := registerInputsLoop_inj clientInputs
    have hnd₂ : (p₂.map Prod.fst).Nodup := (hperm.map Prod.fst).nodup_iff.mp hnd
    rw [BindProfile_remap, BindProfile_remap]
    simp only [RegisterClientInputs, RegisterActions]
    cases h₁ : mapFind? (p₁.foldl (remapFoldStep (registerInputsLoop 0 clientInputs [] []).1
        (registerActionsLoop 0 actionPaths [])) []) ci with
    | some ai =>
      obtain ⟨b, hb, hC, hA⟩ := (remapFold_lookup_iff _ _ hinj p₁ hnd ci ai).mp h₁
      exact ((remapFold_lookup_iff _ _ hinj p₂ hnd₂ ci ai).mpr
        ⟨b, hperm.mem_iff.mp hb, hC, hA⟩).symm
    | none =>
      cases h₂ : mapFind? (p₂.foldl (remapFoldStep
          (registerInputsLoop 0 clientInputs [] []).1
          (registerActionsLoop 0 actionPaths [])) []) ci with
      | none => rfl
      | some ai =>
        obtain ⟨b, hb, hC, hA⟩ := (remapFold_lookup_iff _ _ hinj p₂ hnd₂ ci ai).mp h₂
        have hcontra := (remapFold_lookup_iff _ _ hinj p₁ hnd ci ai).mpr
          ⟨b, hperm.mem_iff.mpr hb, hC, hA⟩
        rw [h₁] at hcontra
        exact Option.noConfusion hcontra
  · intro m pre post b hskip
    unfold BindProfile
    exact foldl_bindProfileStep_skip pre post b _ hskip

/-- Witness for claim C3 at a concrete vocabulary: two orderings of a
two-entry profile give the same lookup, and an unresolvable entry is
skipped. -/
theorem claim_C3_witness :
    (mapFind? ((((({} : cxrControllerInputActionMap).RegisterClientInputs
        [("/input/a/click", 1), ("/input/b/click", 1)]).RegisterActions
        ["/actions/jump"]).BindProfile
        [("/input/a/click", "/actions/jump"),
         ("/input/b/click", "/actions/jump")]).inputToActionRemap) 1 =
      mapFind? ((((({} : cxrControllerInputActionMap).RegisterClientInputs
        [("/input/a/click", 1), ("/input/b/click", 1)]).RegisterActions
        ["/actions/jump"]).BindProfile
        [("/input/b/click", "/actions/jump"),
         ("/input/a/click", "/actions/jump")]).inputToActionRemap) 1) ∧
    (({} : cxrControllerInputActionMap).BindProfile
        [("/input/missing", "/actions/jump")] =
      ({} : cxrControllerInputActionMap).BindProfile []) :=
  ⟨claim_C3.1 {} {} [("/input/a/click", 1), ("/input/b/click", 1)] ["/actions/jump"]
      [("/input/a/click", "/actions/jump"), ("/input/b/click", "/actions/jump")]
      [("/input/b/click", "/actions/jump"), ("/input/a/click", "/actions/jump")]
      (List.Perm.swap _ _ _) (by decide) 1,
    claim_C3.2 {} [] [] ("/input/missing", "/actions/jump") (Or.inl rfl)⟩

/-- Claim C2 is a code bug, exhibited here: `RegisterActions` assigns the
first registered action the index `0` (its array offset), so binding a
client input to it stores the resolved index `0` in the remap table,
`GetActionIndex` returns `0` for that bound input — indistinguishable from
"no action bound" — and `HandleModernEvents` consequently drops a well-typed
event on that input. -/
theorem claim_C2_bug :
    mapFind? c2ExampleMap.inputToActionRemap 0 = some 0 ∧
    c2ExampleMap.GetActionIndex 0 = 0 ∧
    (CloudXRController.HandleModernEvents c2ExampleMap [] [c2ExampleEvent]).2 = [] := by
  refine ⟨?_, ?_, ?_⟩ <;> rfl

/-- Claim C9: a raw controller event whose declared value type differs from
the datatype registered for its client input index is dropped by
`HandleModernEvents` (not appended to the server queue) even when a binding
exists; an event is appended exactly when the datatype matches and the
resolved action index is nonzero, and the action map is left unchanged.
The final conjunct shows `HandleModernEvents` processes a batch exactly by
iterating this per-event step. -/
theorem claim_C9 (m : cxrControllerInputActionMap) (q : List cxrActionEvent)
    (e : cxrControllerEvent) (t : Nat) (rest : List cxrControllerEvent)
    (hreg : mapFind? m.clientInputDatatypes e.clientInputIndex = some t) :
    (t ≠ e.inputValue.valueType →
      CloudXRController.handleOneModernEvent m q e = (m, q)) ∧
    (CloudXRController.handleOneModernEvent m q e).1 = m ∧
    ((CloudXRController.handleOneModernEvent m q e).2 =
      if t = e.inputValue.valueType ∧ m.GetActionIndex e.clientInputIndex ≠ 0 then
        q ++ [{ actionIndex := m.GetActionIndex e.clientInputIndex, clientEvent := e }]
      else q) ∧
    (CloudXRController.HandleModernEvents m q (e :: rest) =
      CloudXRController.HandleModernEvents
        (CloudXRController.handleOneModernEvent m q e).1
        (CloudXRController.handleOneModernEvent m q e).2 rest) := by
  have hget : mapGetOrInsert m.clientInputDatatypes e.clientInputIndex 0 =
      (t, m.clientInputDatatypes) := by
    unfold mapGetOrInsert
    rw [hreg]
  have hm1 : ({ m with clientInputDatatypes := m.clientInputDatatypes } :
      cxrControllerInputActionMap) = m := rfl
  refine ⟨?_, ?_, ?_, ?_⟩
  · intro hne
    unfold CloudXRController.handleOneModernEvent
    rw [hget]
    simp only [hm1]
    rw [if_pos hne]
  · unfold CloudXRController.handleOneModernEvent
    rw [hget]
    simp only [hm1]
    by_cases hne : t ≠ e.inputValue.valueType
    · rw [if_pos hne]
    · rw [if_neg hne]
      by_cases hz : m.GetActionIndex e.clientInputIndex = 0
      · rw [if_pos hz]
      · rw [if_neg hz]
  · unfold CloudXRController.handleOneModernEvent
    rw [hget]
    simp only [hm1]
    by_cases hne : t ≠ e.inputValue.valueType
    · rw [if_pos hne, if_neg]
      intro hand
      exact hne hand.1
    · rw [if_neg hne]
      push_neg at hne
      by_cases hz : m.GetActionIndex e.clientInputIndex = 0
      · rw [if_pos hz, if_neg]
        intro hand
        exact hand.2 hz
      · rw [if_neg hz, if_pos ⟨hne, hz⟩]
  · rfl

/-- Witness for claim C9 at the concrete scenario map: an event with a
mismatched datatype on the registered input `0` is dropped. -/
theorem claim_C9_witness :
    CloudXRController.handleOneModernEvent c2ExampleMap []
      { clientInputIndex := 0,
        inputValue := { valueType := cxrInputValueType_boolean, vBool := true } } =
      (c2ExampleMap, []) :=
  (claim_C9 c2ExampleMap []
    { clientInputIndex := 0,
      inputValue := { valueType := cxrInputValueType_boolean, vBool := true } }
    cxrInputValueType_float32 [] (by decide)).1 (by decide)

end cxrControllerInputActionMap

/-! ## Lemmas about the client state machine and frame pipeline -/

namespace CloudXRClientOVR

theorem RecreateSwapchain_clientState (w h : Nat) (eye : Fin 2) (s : CloudXRClientOVR) :
    (RecreateSwapchain w h eye s).clientState = s.clientState := by
  unfold RecreateSwapchain
  split <;> rfl

theorem RecreateSwapchain_renderState (w h : Nat) (eye : Fin 2) (s : CloudXRClientOVR) :
    (RecreateSwapchain w h eye s).renderState = s.renderState := by
  unfold RecreateSwapchain
  split <;> rfl

theorem HandleVrModeChanges_noop (env : OvrEnv) (s : CloudXRClientOVR)
    (h : s.isPaused = s.wasPaused) : HandleVrModeChanges env s = s := by
  unfold HandleVrModeChanges
  rw [if_pos h]

theorem AppPaused_receiver (s : CloudXRClientOVR) : (AppPaused s).receiver = false := by
  simp only [AppPaused, TeardownReceiver]
  split_ifs with h1 h2
  · rfl
  · rfl
  · simpa using h1

theorem AppPaused_swapChains (s : CloudXRClientOVR) :
    (AppPaused s).swapChain0 = false ∧ (AppPaused s).swapChain1 = false :=
  ⟨rfl, rfl⟩

theorem AppPaused_isPaused (s : CloudXRClientOVR) : (AppPaused s).isPaused = s.isPaused := by
  simp only [AppPaused, TeardownReceiver]
  split_ifs with h1 h2 <;> rfl

theorem AppPaused_wasPaused (s : CloudXRClientOVR) :
    (AppPaused s).wasPaused = s.isPaused := by
  simp only [AppPaused, TeardownReceiver]
  split_ifs with h1 h2 <;> rfl

theorem AppPaused_reset (s : CloudXRClientOVR) (hr : s.receiver = true)
    (he : s.clientState ≠ cxrClientState.Exiting) :
    (AppPaused s).clientState = .ReadyToConnect ∧
      (AppPaused s).renderState = .Loading := by
  simp only [AppPaused, TeardownReceiver, hr]
  split_ifs
  all_goals first
    | exact ⟨rfl, rfl⟩
    | exact absurd he (by assumption)
    | exact absurd trivial (by assumption)

theorem getLastInput_setControllerPose (s : CloudXRClientOVR) (r' r : Bool) (p : Nat) :
    getLastInput (setControllerPose s r' p) r = getLastInput s r := by
  unfold getLastInput setControllerPose
  cases r' <;> cases r <;> rfl

theorem getLastInput_setLastInput_same (s : CloudXRClientOVR) (r : Bool)
    (v : ovrInputStateTrackedRemote) : getLastInput (setLastInput s r v) r = v := by
  unfold getLastInput setLastInput
  cases r <;> rfl

theorem getLastInput_fatal (s : CloudXRClientOVR) (r : Bool) :
    getLastInput { s with fatalThrown := true } r = getLastInput s r := by
  unfold getLastInput
  cases r <;> rfl

theorem setControllerAdded_refreshChanged (s : CloudXRClientOVR) (r : Bool) :
    (setControllerAdded s r).refreshChanged = s.refreshChanged := by
  unfold setControllerAdded
  cases r <;> rfl

theorem setControllerPose_refreshChanged (s : CloudXRClientOVR) (r : Bool) (p : Nat) :
    (setControllerPose s r p).refreshChanged = s.refreshChanged := by
  unfold setControllerPose
  cases r <;> rfl

theorem setLastInput_refreshChanged (s : CloudXRClientOVR) (r : Bool)
    (v : ovrInputStateTrackedRemote) :
    (setLastInput s r v).refreshChanged = s.refreshChanged := by
  unfold setLastInput
  cases r <;> rfl

theorem ProcessOneDevice_refreshChanged (env : OvrEnv) (d : OvrDeviceSample)
    (s : CloudXRClientOVR) :
    (ProcessOneDevice env d s).1.refreshChanged = s.refreshChanged := by
  simp only [ProcessOneDevice]
  split_ifs with h1 h2 h3 h4 h5 h6 <;>
    simp [setControllerAdded_refreshChanged, setControllerPose_refreshChanged,
      setLastInput_refreshChanged]

theorem ProcessDevicesLoop_refreshChanged (env : OvrEnv) :
    ∀ (devices : List OvrDeviceSample) (s : CloudXRClientOVR),
      (ProcessDevicesLoop env devices s).1.refreshChanged = s.refreshChanged
  | [], s => rfl
  | d :: rest, s => by
    simp only [ProcessDevicesLoop]
    split_ifs with h1 h2 <;>
      simp [ProcessDevicesLoop_refreshChanged env rest, ProcessOneDevice_refreshChanged]

theorem ProcessControllers_refreshChanged (env : OvrEnv) (s : CloudXRClientOVR) :
    (ProcessControllers env s).1.refreshChanged = s.refreshChanged := by
  unfold ProcessControllers
  split_ifs with h1
  · rfl
  · exact ProcessDevicesLoop_refreshChanged env env.devices s

theorem DoTracking_flags (env : OvrEnv) (s : CloudXRClientOVR) :
    (DoTracking env s).1.trackingState.hmd.flags =
      { hasIPD := true, hasRefresh := s.refreshChanged } := by
  simp only [DoTracking]
  cases hb : (ProcessControllers env s).1.refreshChanged with
  | true => simp [hb, ← ProcessControllers_refreshChanged env s, hb]
  | false => simp [hb, ← ProcessControllers_refreshChanged env s, hb]

theorem DoTracking_refreshCleared (env : OvrEnv) (s : CloudXRClientOVR) :
    (DoTracking env s).1.refreshChanged = false := by
  simp only [DoTracking]
  cases hb : (ProcessControllers env s).1.refreshChanged <;> simp [hb]

/-- One element of a `filterMap` over a duplicate-free index list on which
the function fires at exactly one index. -/
theorem filterMap_eq_singleton {α : Type} (f : Nat → Option α) (e : α) :
    ∀ (l : List Nat) (i : Nat), l.Nodup → i ∈ l → f i = some e →
      (∀ j ∈ l, j ≠ i → f j = none) → l.filterMap f = [e]
  | [], i, _, hin, _, _ => absurd hin (List.not_mem_nil i)
  | a :: t, i, hnd, hin, hfi, hoth => by
    rw [List.nodup_cons] at hnd
    by_cases ha : a = i
    · subst ha
      rw [List.filterMap_cons_some hfi]
      have ht : t.filterMap f = [] := by
        rw [List.filterMap_eq_nil]
        intro j hj
        exact hoth j (List.mem_cons_of_mem _ hj)
          (fun hji => hnd.1 (hji ▸ hj))
      rw [ht]
    · have hfa : f a = none :=
        hoth a (List.mem_cons_self _ _) (fun hai => ha hai)
      rw [List.filterMap_cons_none hfa]
      rcases List.mem_cons.mp hin with he | ht
      · exact absurd he.symm ha
      · exact filterMap_eq_singleton f e t i hnd.2 ht hfi
          (fun j hj => hoth j (List.mem_cons_of_mem _ hj))

/-- Claim C1 counterexample: from `ConnectionAttemptInProgress`, a peer
callback reporting `ConnectionAttemptFailed` followed by one main-loop
update does reach Exiting/Exiting — but a subsequent peer callback
(reporting `StreamingSessionInProgress`) overwrites `mClientState`
unconditionally, and the next main-loop update then moves the render state
to `Running`; so "no further peer state updates are processed" after
Exiting is false on the code. -/
theorem claim_C1_counterexample :
    ((UpdateClientState (clientProxyUpdateClientState
        { clientState := .ConnectionAttemptInProgress, connectionAsync := true }
        .ConnectionAttemptFailed .Failed)).clientState = .Exiting ∧
     (UpdateClientState (clientProxyUpdateClientState
        { clientState := .ConnectionAttemptInProgress, connectionAsync := true }
        .ConnectionAttemptFailed .Failed)).renderState = .Exiting) ∧
    (clientProxyUpdateClientState (UpdateClientState (clientProxyUpdateClientState
        { clientState := .ConnectionAttemptInProgress, connectionAsync := true }
        .ConnectionAttemptFailed .Failed)) .StreamingSessionInProgress
        .Success).clientState = .StreamingSessionInProgress ∧
    (UpdateClientState (clientProxyUpdateClientState (UpdateClientState
        (clientProxyUpdateClientState
          { clientState := .ConnectionAttemptInProgress, connectionAsync := true }
          .ConnectionAttemptFailed .Failed)) .StreamingSessionInProgress
        .Success)).renderState = .Running := by
  refine ⟨⟨?_, ?_⟩, ?_, ?_⟩ <;> rfl

/-- Claim C1 (amended): Exiting is sticky only with respect to the
main-loop update step: `UpdateClientState` is the identity once
`mClientState` is Exiting, and from `ConnectionAttemptInProgress` a peer
callback reporting `ConnectionAttemptFailed` followed by one main-loop
update makes both ClientState and RenderState Exiting.  However, the async
peer callback overwrites `mClientState` (and `mClientError`)
unconditionally — it has no Exiting guard — so a peer state update arriving
after Exiting still changes ClientState and is processed by the next
main-loop update. -/
theorem claim_C1 (s : CloudXRClientOVR) (st : cxrClientState) (err : cxrError) :
    (s.clientState = .Exiting → UpdateClientState s = s) ∧
    ((clientProxyUpdateClientState s st err).clientState = st ∧
     (clientProxyUpdateClientState s st err).clientError = err ∧
     (clientProxyUpdateClientState s st err).renderState = s.renderState) ∧
    (s.clientState = .ConnectionAttemptInProgress →
      (UpdateClientState (clientProxyUpdateClientState s .ConnectionAttemptFailed
        err)).clientState = .Exiting ∧
      (UpdateClientState (clientProxyUpdateClientState s .ConnectionAttemptFailed
        err)).renderState = .Exiting) := by
  refine ⟨?_, ⟨rfl, rfl, rfl⟩, ?_⟩
  · intro h
    unfold UpdateClientState
    rw [if_pos h]
  · intro h
    by_cases ha : s.connectionAsync = true <;>
      simp [UpdateClientState, clientProxyUpdateClientState, RequestExit, ha]

/-- Witness for claim C1 at the concrete failure scenario. -/
theorem claim_C1_witness :
    (UpdateClientState (clientProxyUpdateClientState
      { clientState := .ConnectionAttemptInProgress, connectionAsync := true }
      .ConnectionAttemptFailed .Failed)).clientState = .Exiting ∧
    (UpdateClientState (clientProxyUpdateClientState
      { clientState := .ConnectionAttemptInProgress, connectionAsync := true }
      .ConnectionAttemptFailed .Failed)).renderState = .Exiting :=
  (claim_C1 { clientState := .ConnectionAttemptInProgress, connectionAsync := true }
    .ReadyToConnect .Failed).2.2 rfl

/-- Claim C10: in any frame in which ClientState is not
`StreamingSessionInProgress`, the controller-processing step is a complete
no-op: the state (controller registrations, cached input snapshots,
controller tracking entries, everything) is returned unchanged and no event
batch is submitted. -/
theorem claim_C10 (env : OvrEnv) (s : CloudXRClientOVR)
    (h : s.clientState ≠ cxrClientState.StreamingSessionInProgress) :
    ProcessControllers env s = (s, []) := by
  unfold ProcessControllers
  rw [if_pos h]

/-- Witness for claim C10: the initial state (ReadyToConnect) is left
untouched. -/
theorem claim_C10_witness : ProcessControllers {} {} = ({}, []) :=
  claim_C10 {} {} (by decide)

/-- Claim C5: the per-frame IPD value stored in the head tracking state is
the raw runtime IPD truncated toward zero to 4 decimal places; both raw
values 0.063994 and 0.063997 produce exactly 0.0639, and 0.063997 is not
rounded up to 0.0640. -/
theorem claim_C5 :
    (∀ (env : OvrEnv) (s : CloudXRClientOVR),
      (DoTracking env s).1.trackingState.hmd.ipd = ipdTruncate env.rawIpd) ∧
    ipdTruncate (63994 / 1000000) = 639 / 10000 ∧
    ipdTruncate (63997 / 1000000) = 639 / 10000 ∧
    ipdTruncate (63997 / 1000000) ≠ 640 / 10000 := by
  refine ⟨fun env s => rfl, ?_, ?_, ?_⟩ <;> norm_num [ipdTruncate, truncf]

/-- Claim C6 counterexample: the `HasIPD` flag is set every frame
unconditionally, not only when a genuine change is detected: a frame whose
raw IPD truncates to exactly the value already stored from the previous
frame still carries `hasIPD = true`. -/
theorem claim_C6_counterexample :
    (DoTracking { rawIpd := 639 / 10000 }
      { trackingState := { hmd := { ipd := 639 / 10000 } } }).1.trackingState.hmd.flags.hasIPD
      = true ∧
    ipdTruncate (639 / 10000 : Rat) = 639 / 10000 := by
  constructor
  · rfl
  · norm_num [ipdTruncate, truncf]

/-- Claim C6 (amended): the head-tracking flag bundle is reset to empty at
the start of every frame's tracking update and never persists — the
resulting flags are exactly `{hasIPD := true, hasRefresh := pending}`, a
function of the pending refresh-change flag alone, independent of the
previous frame's flags; `HasRefresh` is set exactly when a refresh change
was pending (which is also cleared), while `HasIPD` is set unconditionally
every frame rather than only on a genuine IPD change. -/
theorem claim_C6 (env : OvrEnv) (s : CloudXRClientOVR) (f : cxrHmdTrackingFlags) :
    ((DoTracking env s).1.trackingState.hmd.flags =
      { hasIPD := true, hasRefresh := s.refreshChanged }) ∧
    ((DoTracking env s).1.refreshChanged = false) ∧
    ((DoTracking env { s with trackingState.hmd.flags := f }).1.trackingState.hmd.flags
      = (DoTracking env s).1.trackingState.hmd.flags) := by
  refine ⟨DoTracking_flags env s, DoTracking_refreshCleared env s, ?_⟩
  rw [DoTracking_flags, DoTracking_flags]

/-- Witness for claim C6 (its statement is hypothesis-free up to the
universally quantified state); instantiated at a state carrying stale
flags and a pending refresh change. -/
theorem claim_C6_witness :
    ((DoTracking {} { refreshChanged := true }).1.trackingState.hmd.flags =
      { hasIPD := true, hasRefresh := true }) ∧
    ((DoTracking {} { refreshChanged := true }).1.refreshChanged = false) ∧
    ((DoTracking {} { ({ refreshChanged := true } : CloudXRClientOVR) with
        trackingState.hmd.flags := { hasIPD := true, hasRefresh := true }
      }).1.trackingState.hmd.flags =
      (DoTracking {} { refreshChanged := true }).1.trackingState.hmd.flags) :=
  claim_C6 {} { refreshChanged := true } { hasIPD := true, hasRefresh := true }

/-- Claim C7: the pause transition is idempotent: with the paused flag set
and the was-paused flag still clear, one `HandleVrModeChanges` iteration
performs the teardown (receiver destroyed, swapchains destroyed, and — when
a receiver existed and the client was not Exiting — ClientState reset to
ReadyToConnect and RenderState to Loading), after which was-paused matches
paused, so a second iteration (under any environment) is a no-op returning
the state unchanged, swapchain and connection handle state included. -/
theorem claim_C7 (env env' : OvrEnv) (s : CloudXRClientOVR)
    (hp : s.isPaused = true) (hw : s.wasPaused = false) :
    ((HandleVrModeChanges env s).receiver = false ∧
     (HandleVrModeChanges env s).swapChain0 = false ∧
     (HandleVrModeChanges env s).swapChain1 = false ∧
     (HandleVrModeChanges env s).isPaused = true ∧
     (HandleVrModeChanges env s).wasPaused = true) ∧
    (s.receiver = true → s.clientState ≠ cxrClientState.Exiting →
      (HandleVrModeChanges env s).clientState = .ReadyToConnect ∧
      (HandleVrModeChanges env s).renderState = .Loading) ∧
    HandleVrModeChanges env' (HandleVrModeChanges env s) =
      HandleVrModeChanges env s := by
  have h1 : HandleVrModeChanges env s = AppPaused { s with ovrSession := false } := by
    unfold HandleVrModeChanges
    rw [if_neg (by rw [hp, hw]; simp), if_neg (by simp [hp]), if_pos (Or.inl hp)]
  refine ⟨⟨?_, ?_, ?_, ?_, ?_⟩, ?_, ?_⟩
  · rw [h1, AppPaused_receiver]
  · rw [h1]
    exact (AppPaused_swapChains _).1
  · rw [h1]
    exact (AppPaused_swapChains _).2
  · rw [h1, AppPaused_isPaused]
    exact hp
  · rw [h1, AppPaused_wasPaused]
    exact hp
  · intro hrc he
    rw [h1]
    exact AppPaused_reset _ hrc he
  · rw [h1]
    exact HandleVrModeChanges_noop env' _
      (by rw [AppPaused_isPaused, AppPaused_wasPaused])

/-- Witness for claim C7: a paused state with a live receiver is torn down
once and the second iteration is a no-op. -/
theorem claim_C7_witness :
    ((HandleVrModeChanges {}
        { isPaused := true, wasPaused := false, receiver := true }).receiver = false ∧
     (HandleVrModeChanges {}
        { isPaused := true, wasPaused := false, receiver := true }).swapChain0 = false ∧
     (HandleVrModeChanges {}
        { isPaused := true, wasPaused := false, receiver := true }).swapChain1 = false ∧
     (HandleVrModeChanges {}
        { isPaused := true, wasPaused := false, receiver := true }).isPaused = true ∧
     (HandleVrModeChanges {}
        { isPaused := true, wasPaused := false, receiver := true }).wasPaused = true) ∧
    (({ isPaused := true, wasPaused := false, receiver := true } :
        CloudXRClientOVR).receiver = true →
      ({ isPaused := true, wasPaused := false, receiver := true } :
        CloudXRClientOVR).clientState ≠ cxrClientState.Exiting →
      (HandleVrModeChanges {}
        { isPaused := true, wasPaused := false, receiver := true }).clientState =
        .ReadyToConnect ∧
      (HandleVrModeChanges {}
        { isPaused := true, wasPaused := false, receiver := true }).renderState =
        .Loading) ∧
    HandleVrModeChanges {} (HandleVrModeChanges {}
      { isPaused := true, wasPaused := false, receiver := true }) =
      HandleVrModeChanges {} { isPaused := true, wasPaused := false, receiver := true } :=
  claim_C7 {} {} { isPaused := true, wasPaused := false, receiver := true } rfl rfl

/-- Claim C8: in the per-frame render path with a receiver and a streaming
session, a latch timeout (`Frame_Not_Ready`) is not fatal: the client and
render states are unchanged and the placeholder background is painted
(whenever framebuffer setup succeeds); an explicit `Not_Connected` latch
failure requests exit, making both states Exiting; and no latch result
other than `Not_Connected` changes either state. -/
theorem claim_C8 (env : OvrEnv) (s : CloudXRClientOVR)
    (hr : s.receiver = true)
    (hs : s.clientState = cxrClientState.StreamingSessionInProgress) :
    (env.latchError = .Frame_Not_Ready →
      (Render env s).1.clientState = s.clientState ∧
      (Render env s).1.renderState = s.renderState ∧
      (Render env s).2 = env.setupFbOk) ∧
    (env.latchError = .Not_Connected →
      (Render env s).1.clientState = .Exiting ∧
      (Render env s).1.renderState = .Exiting) ∧
    (env.latchError ≠ .Not_Connected →
      (Render env s).1.clientState = s.clientState ∧
      (Render env s).1.renderState = s.renderState) := by
  refine ⟨?_, ?_, ?_⟩
  · intro hl
    refine ⟨?_, ?_, ?_⟩ <;> simp [Render, hr, hs, hl]
  · intro hl
    constructor <;> simp [Render, hr, hs, hl, RequestExit]
  · intro hne
    cases hl : env.latchError with
    | Not_Connected => exact absurd hl hne
    | Success =>
      constructor <;>
      · simp only [Render, hr, hs, hl]
        split_ifs <;>
          simp [RecreateSwapchain_clientState, RecreateSwapchain_renderState]
    | Frame_Not_Ready => constructor <;> simp [Render, hr, hs, hl]
    | Failed => constructor <;> simp [Render, hr, hs, hl]
    | Required_Parameter => constructor <;> simp [Render, hr, hs, hl]
    | Module_Load_Failed => constructor <;> simp [Render, hr, hs, hl]
    | other n => constructor <;> simp [Render, hr, hs, hl]

/-- Witness for claim C8: a frame-not-ready latch in a streaming session
leaves the states alone and paints the placeholder. -/
theorem claim_C8_witness :
    (Render { latchError := .Frame_Not_Ready }
      { receiver := true,
        clientState := .StreamingSessionInProgress }).1.clientState =
      cxrClientState.StreamingSessionInProgress ∧
    (Render { latchError := .Frame_Not_Ready }
      { receiver := true,
        clientState := .StreamingSessionInProgress }).1.renderState =
      RenderState.Loading ∧
    (Render { latchError := .Frame_Not_Ready }
      { receiver := true, clientState := .StreamingSessionInProgress }).2 = true :=
  (claim_C8 { latchError := .Frame_Not_Ready }
    { receiver := true, clientState := .StreamingSessionInProgress } rfl rfl).1 rfl

/-- Claim C4 counterexample: bit 5 of the 32-bit button mask is unmapped in
`ovrBitsToInput` (entry `-1`), so two consecutive snapshots that differ only
in bit 5 produce no event at all — not "exactly one boolean event" — and
the cached snapshot for the hand stays unchanged (no submission occurs). -/
theorem claim_C4_counterexample :
    deviceEvents { Buttons := 32 } {} 0 = [] ∧
    (ProcessOneDevice {} { input := { Buttons := 32 } }
      { controllerAdded0 := true }).2 = [] ∧
    (ProcessOneDevice {} { input := { Buttons := 32 } }
      { controllerAdded0 := true }).1.lastInputState0 =
      ({} : ovrInputStateTrackedRemote) := by
  refine ⟨?_, ?_, ?_⟩ <;> rfl

/-- Claim C4 (amended): for two consecutive raw controller input snapshots
that differ only in a button-mask bit `i` that `ovrBitsToInput` maps to a
client input index (entry ≥ 0), the per-frame diff pass emits exactly one
boolean event carrying that mapped client input index (and the new bit
value), and the cached previous snapshot for that hand is overwritten with
the new snapshot if and only if the event-batch submission to the peer
succeeds; for an unmapped bit such as bit 5 no event is emitted and the
cache is unchanged (see the counterexample). -/
theorem claim_C4 (prev cur : ovrInputStateTrackedRemote) (i : Nat) (inputId : Int)
    (env : OvrEnv) (d : OvrDeviceSample) (s : CloudXRClientOVR)
    (hi : ovrBitsToInput.getD i (-1) = inputId) (hpos : 0 ≤ inputId)
    (hscal1 : cur.IndexTrigger = prev.IndexTrigger)
    (hscal2 : cur.GripTrigger = prev.GripTrigger)
    (hscal3 : cur.JoystickX = prev.JoystickX)
    (hscal4 : cur.JoystickY = prev.JoystickY)
    (htouch : cur.Touches = prev.Touches)
    (hbit : cur.Buttons.testBit i ≠ prev.Buttons.testBit i)
    (hoth : ∀ j, j < 32 → j ≠ i → cur.Buttons.testBit j = prev.Buttons.testBit j)
    (hd1 : d.isTrackedRemote = true) (hd2 : getControllerAdded s d.isRightHand = true)
    (hd3 : d.trackingOk = true) (hd4 : d.inputOk = true) (hd5 : d.input = cur)
    (hd6 : getLastInput s d.isRightHand = prev) :
    deviceEvents cur prev env.timeNS =
      [{ clientTimeNS := env.timeNS, clientInputIndex := inputId.toNat,
         inputValue := { valueType := cxrInputValueType_boolean,
                         vBool := cur.Buttons.testBit i } }] ∧
    (ProcessOneDevice env d s).2 = deviceEvents cur prev env.timeNS ∧
    getLastInput (ProcessOneDevice env d s).1 d.isRightHand =
      (if env.fireEventsOk then cur else prev) := by
  have hi32 : i < 32 := by
    by_contra hno
    push_neg at hno
    rw [List.getD_eq_default _ _ (by simpa [ovrBitsToInput] using hno)] at hi
    rw [← hi] at hpos
    norm_num at hpos
  have hmask : cur.Buttons ≠ prev.Buttons := fun hh => hbit (by rw [hh])
  have hscal : scalarEvents cur prev env.timeNS = [] := by
    simp [scalarEvents, hscal1, hscal2, hscal3, hscal4]
  have htch : touchEvents cur prev env.timeNS = [] := by
    simp [touchEvents, htouch]
  have hf : buttonBitEvent cur prev env.timeNS i =
      some { clientTimeNS := env.timeNS, clientInputIndex := inputId.toNat,
             inputValue := { valueType := cxrInputValueType_boolean,
                             vBool := cur.Buttons.testBit i } } := by
    simp only [buttonBitEvent, hi]
    rw [if_neg (not_lt.mpr hpos), if_pos hbit]
  have hothf : ∀ j ∈ List.range 32, j ≠ i → buttonBitEvent cur prev env.timeNS j = none := by
    intro j hj hne
    have hjlt := List.mem_range.mp hj
    simp only [buttonBitEvent]
    split_ifs with g1 g2
    · rfl
    · exact absurd (hoth j hjlt hne) g2
    · rfl
  have hbtn : buttonEvents cur prev env.timeNS =
      [{ clientTimeNS := env.timeNS, clientInputIndex := inputId.toNat,
         inputValue := { valueType := cxrInputValueType_boolean,
                         vBool := cur.Buttons.testBit i } }] := by
    unfold buttonEvents
    rw [if_pos hmask]
    exact filterMap_eq_singleton _ _ _ i (List.nodup_range 32)
      (List.mem_range.mpr hi32) hf hothf
  have hdev : deviceEvents cur prev env.timeNS =
      [{ clientTimeNS := env.timeNS, clientInputIndex := inputId.toNat,
         inputValue := { valueType := cxrInputValueType_boolean,
                         vBool := cur.Buttons.testBit i } }] := by
    unfold deviceEvents
    rw [hscal, hbtn, htch]
    rfl
  refine ⟨hdev, ?_, ?_⟩
  · simp [ProcessOneDevice, hd1, hd2, hd3, hd4, getLastInput_setControllerPose,
      hd6, hd5]
    rw [if_neg (by rw [hdev]; simp)]
    by_cases hfire : env.fireEventsOk = true
    · rw [if_pos hfire]
    · rw [if_neg hfire]
  · simp [ProcessOneDevice, hd1, hd2, hd3, hd4, getLastInput_setControllerPose,
      hd6, hd5]
    rw [if_neg (by rw [hdev]; simp)]
    by_cases hfire : env.fireEventsOk = true
    · rw [if_pos hfire, if_pos hfire, getLastInput_setLastInput_same]
    · rw [if_neg hfire, if_neg hfire, getLastInput_fatal,
        getLastInput_setControllerPose, hd6]

/-- Witness for claim C4: a change in mapped bit 0 (client input index 12)
with a successful submission. -/
theorem claim_C4_witness :
    deviceEvents { Buttons := 1 } {} 0 =
      [{ clientTimeNS := 0, clientInputIndex := 12,
         inputValue := { valueType := cxrInputValueType_boolean, vBool := true } }] ∧
    (ProcessOneDevice {} { input := { Buttons := 1 } }
      { controllerAdded0 := true }).2 = deviceEvents { Buttons := 1 } {} 0 ∧
    getLastInput (ProcessOneDevice {} { input := { Buttons := 1 } }
      { controllerAdded0 := true }).1 false =
      (if true then { Buttons := 1 } else ({} : ovrInputStateTrackedRemote)) :=
  claim_C4 {} { Buttons := 1 } 0 12 {} { input := { Buttons := 1 } }
    { controllerAdded0 := true } rfl (by decide) rfl rfl rfl rfl rfl (by decide)
    (by decide) rfl rfl rfl rfl rfl rfl

end CloudXRClientOVR

end CloudXR
